import Mathlib

/-!
Shallow embedding of the stock-forecasting core of PD2-App
(src/utils/predictions.py) and proofs about it.

Modelling conventions:
* Python floats are modelled as exact rationals.
* IEEE special values (inf, NaN) are modelled explicitly (with Option or a
  case split) at the places where a verified property depends on them; at
  places where no property depends on the value, rational division by zero
  yields the junk value 0 and a comment records the divergence.
* Calls into external numeric libraries (statsmodels ARIMA, prophet,
  tensorflow, the numpy normal sampler, floating square roots) are not code
  of this repository; they enter the embedding as oracle parameters.  All
  deterministic repository code around them (sufficiency guards, fallback
  construction, filtering, weighting, classification) is embedded directly.
-/

set_option autoImplicit false

/-- Daily OHLCV bar: one row of the `historical` DataFrame. -/
structure Bar where
  date : ℕ
  open_ : ℚ
  high : ℚ
  low : ℚ
  close : ℚ
  volume : ℚ
deriving DecidableEq

/-- Projection of the close column, `df['close']`. -/
def closes (df : List Bar) : List ℚ := df.map Bar.close

/-- Projection of the volume column, `df['volume']`. -/
def volumes (df : List Bar) : List ℚ := df.map Bar.volume

/-- Last close, `df['close'].iloc[-1]`.  The default 0 is junk for an empty
frame (where the source would raise an IndexError); every use below is
guarded by a length check. -/
def lastClose (df : List Bar) : ℚ := (closes df).getLastD 0

/-- Last `w` entries of a series: the window that a rolling statistic of
window `w` sees at the last index. -/
def windowLast (w : ℕ) (l : List ℚ) : List ℚ := l.drop (l.length - w)

/-- Value at the last index of `l.rolling(window=w).mean()`. -/
def rollingMeanLast (w : ℕ) (l : List ℚ) : ℚ := (windowLast w l).sum / w

/-- Arithmetic mean, `np.mean` (junk 0 on the empty list, where numpy
yields NaN). -/
def listMean (l : List ℚ) : ℚ := l.sum / l.length

/-- Population variance, the square of `np.std` (ddof = 0). -/
def popVariance (l : List ℚ) : ℚ :=
  (l.map (fun x => (x - listMean l) ^ 2)).sum / l.length

/-- Sample variance, the square of the pandas `std` (ddof = 1).  Junk for
lists of length below 2 (pandas yields NaN there). -/
def sampleVariance (l : List ℚ) : ℚ :=
  (l.map (fun x => (x - listMean l) ^ 2)).sum / ((l.length : ℚ) - 1)

/-!
RSI, `calculate_rsi`.

`delta = df['close'].diff()` has NaN at index 0; `delta.where(delta > 0, 0)`
turns that NaN into 0 (NaN > 0 is false), so the gain and loss series carry
an artificial 0 at index 0 and are NaN-free.  Their rolling means are
defined from index `period - 1` on.  The division `gain / loss` follows
IEEE semantics in the source: positive/0 = +inf (so RSI = 100 - 100/inf =
100) and 0/0 = NaN (so RSI is NaN).  `rsiAt` returns `none` exactly where
the source series holds NaN.
-/

/-- Clamped positive delta entering the gain column at index `j`. -/
def gainTerm (c : List ℚ) (j : ℕ) : ℚ :=
  if j = 0 then 0 else max (c.getD j 0 - c.getD (j - 1) 0) 0

/-- Clamped negative delta (negated) entering the loss column at index `j`. -/
def lossTerm (c : List ℚ) (j : ℕ) : ℚ :=
  if j = 0 then 0 else max (c.getD (j - 1) 0 - c.getD j 0) 0

/-- Rolling mean of the gain column at index `i` (window `period`). -/
def avgGain (c : List ℚ) (period i : ℕ) : ℚ :=
  ((List.range period).map (fun k => gainTerm c (i + 1 - period + k))).sum / period

/-- Rolling mean of the loss column at index `i` (window `period`). -/
def avgLoss (c : List ℚ) (period i : ℕ) : ℚ :=
  ((List.range period).map (fun k => lossTerm c (i + 1 - period + k))).sum / period

/-- RSI value at index `i`: `100 - 100 / (1 + rs)` with
`rs = avg_gain / avg_loss`; `none` models NaN (leading window, or 0/0 on a
flat window), `some 100` models the avg_loss = 0, avg_gain > 0 case where
`rs` is +inf. -/
def rsiAt (c : List ℚ) (period i : ℕ) : Option ℚ :=
  if i + 1 < period ∨ c.length ≤ i then none
  else if avgLoss c period i = 0 then
    (if avgGain c period i = 0 then none else some 100)
  else some (100 - 100 / (1 + avgGain c period i / avgLoss c period i))

/-- Full RSI series, `calculate_rsi(df, period)`. -/
def calculate_rsi (c : List ℚ) (period : ℕ) : List (Option ℚ) :=
  (List.range c.length).map (fun i => rsiAt c period i)

/-!
MACD, `calculate_macd`: exponential moving averages with `adjust=False`,
recurrence e_0 = x_0, e_t = alpha * x_t + (1 - alpha) * e_(t-1), with
alpha = 2 / (span + 1).
-/

/-- Exponential moving average series, `l.ewm(span=span, adjust=False).mean()`. -/
def ewmMean (span : ℕ) (l : List ℚ) : List ℚ :=
  match l with
  | [] => []
  | x :: xs =>
    let alpha : ℚ := 2 / (span + 1)
    let step := fun (st : List ℚ × ℚ) (y : ℚ) =>
      let e := alpha * y + (1 - alpha) * st.2
      (e :: st.1, e)
    (xs.foldl step ([x], x)).1.reverse

/-- MACD line, `ema_fast - ema_slow`. -/
def macdLine (c : List ℚ) : List ℚ :=
  List.zipWith (fun a b => a - b) (ewmMean 12 c) (ewmMean 26 c)

/-- MACD signal line, EMA(span=9) of the MACD line. -/
def macdSignalLine (c : List ℚ) : List ℚ := ewmMean 9 (macdLine c)

/-- Last value of the MACD histogram, `(macd - signal).iloc[-1]`. -/
def macdHistogramLast (c : List ℚ) : ℚ :=
  (List.zipWith (fun a b => a - b) (macdLine c) (macdSignalLine c)).getLastD 0

/-- Bollinger(20, 2) position of the current price among the bands at the
last index, `generate_forecast`.  The rolling standard deviation is the
floating square root (oracle `sqrtO`) of the sample variance of the last
20 closes. -/
def bollingerPosition (sqrtO : ℚ → ℚ) (c : List ℚ) (current_price : ℚ) : String :=
  let sma := rollingMeanLast 20 c
  let std := sqrtO (sampleVariance (windowLast 20 c))
  let upper := sma + std * 2
  let lower := sma - std * 2
  if upper < current_price then "UPPER"
  else if current_price < lower then "LOWER"
  else "MIDDLE"

/-- Minimum of a series (0 junk on empty, guarded at every use). -/
def listMin (l : List ℚ) : ℚ :=
  match l with
  | [] => 0
  | x :: xs => xs.foldl min x

/-- Maximum of a series (0 junk on empty, guarded at every use). -/
def listMax (l : List ℚ) : ℚ :=
  match l with
  | [] => 0
  | x :: xs => xs.foldl max x

/-- Stochastic %K classification at the last index, `generate_forecast`.
When the 14-bar high-low range is zero the source computes x / 0 in floats:
+inf (OVERBOUGHT) for a positive numerator, -inf (OVERSOLD) for a negative
one, NaN (neither comparison fires, NEUTRAL) for 0/0. -/
def stochasticSignal (df : List Bar) : String :=
  let low_min := listMin (windowLast 14 (df.map Bar.low))
  let high_max := listMax (windowLast 14 (df.map Bar.high))
  let numer := lastClose df - low_min
  let denom := high_max - low_min
  if denom = 0 then
    if 0 < numer then "OVERBOUGHT" else if numer < 0 then "OVERSOLD" else "NEUTRAL"
  else
    let k := 100 * (numer / denom)
    if 80 < k then "OVERBOUGHT" else if k < 20 then "OVERSOLD" else "NEUTRAL"

/-!
Model results.  Each of the five model functions returns a dict; the keys
that the ensemble and the orchestrator read are `prediction`,
`predictions` (may be absent), `confidence` and `model`.  Model-specific
diagnostic keys (slope, aic, stationary, trend, volatility, percentile
bands) are carried only where a claim needs them.  None of the five model
functions ever puts an `error` key in its dict; the ensemble filter
nevertheless checks for one, so the embedding records its presence as a
Boolean field.
-/

/-- Result dict of one forecast model. -/
structure ModelResult where
  prediction : ℚ
  predictions : Option (List ℚ)
  confidence : ℚ
  model : String
  hasErrKey : Bool
deriving DecidableEq

/-- Insufficient-data fallback dict shared by the five models:
last close, confidence 0.5, no predictions key. -/
def insufficientResult (df : List Bar) : ModelResult :=
  { prediction := lastClose df
    predictions := none
    confidence := 1 / 2
    model := "Insufficient Data"
    hasErrKey := false }

/-- Substring test on character lists: does `pat` occur contiguously in the
second argument?  Embeds the Python `in` test on strings. -/
def listContainsSeq (pat : List Char) : List Char → Bool
  | [] => pat.isPrefixOf ([] : List Char)
  | c :: cs => pat.isPrefixOf (c :: cs) || listContainsSeq pat cs

/-- Python `'Error' in s`: the error marker test of the ensemble filter. -/
def containsErrorMarker (s : String) : Bool :=
  listContainsSeq "Error".toList s.toList

/-!
The five model functions, `auto_arima_prediction`, `prophet_prediction`,
`holt_winters_prediction`, `lstm_prediction`, `monte_carlo_simulation`.
Each one checks its own data floor and returns the insufficiency fallback
below it; above the floor it runs a try block around an external library
fit, whose outcome (a success dict, a caught-exception fallback dict such
as Linear Trend, or an Error-tagged dict) is supplied by an oracle of type
`List Bar → ℕ → ModelResult`.  Monte Carlo is additionally embedded in
full further below for its own claim.
-/

/-- ARIMA model: floor 50 bars, then the library-dependent try block. -/
def auto_arima_prediction (body : List Bar → ℕ → ModelResult)
    (df : List Bar) (days_ahead : ℕ) : ModelResult :=
  if df.length < 50 then insufficientResult df else body df days_ahead

/-- Prophet model: floor 30 bars, then the library-dependent try block. -/
def prophet_prediction (body : List Bar → ℕ → ModelResult)
    (df : List Bar) (days_ahead : ℕ) : ModelResult :=
  if df.length < 30 then insufficientResult df else body df days_ahead

/-- Holt-Winters model: floor 20 bars, then the library-dependent try block. -/
def holt_winters_prediction (body : List Bar → ℕ → ModelResult)
    (df : List Bar) (days_ahead : ℕ) : ModelResult :=
  if df.length < 20 then insufficientResult df else body df days_ahead

/-- LSTM sequence model: floor 60 bars, then the library-dependent try block. -/
def lstm_prediction (body : List Bar → ℕ → ModelResult)
    (df : List Bar) (days_ahead : ℕ) : ModelResult :=
  if df.length < 60 then insufficientResult df else body df days_ahead

/-- Monte Carlo model as seen by the ensemble: floor 30 bars, then the
try block (embedded in full as `monte_carlo_simulation` below; the oracle
also covers the caught-exception Error dict). -/
def monte_carlo_prediction (body : List Bar → ℕ → ModelResult)
    (df : List Bar) (days_ahead : ℕ) : ModelResult :=
  if df.length < 30 then insufficientResult df else body df days_ahead

/-- The library-dependent try-block outcomes of the five models. -/
structure ModelOracles where
  arima : List Bar → ℕ → ModelResult
  prophet : List Bar → ℕ → ModelResult
  holt_winters : List Bar → ℕ → ModelResult
  lstm : List Bar → ℕ → ModelResult
  monte_carlo : List Bar → ℕ → ModelResult

/-- The `models` dict of `ensemble_prediction` (and the `individual_models`
dict of `generate_forecast`): insertion-ordered name/result pairs. -/
def modelsOf (o : ModelOracles) (df : List Bar) (days_ahead : ℕ) :
    List (String × ModelResult) :=
  [("arima", auto_arima_prediction o.arima df days_ahead),
   ("prophet", prophet_prediction o.prophet df days_ahead),
   ("holt_winters", holt_winters_prediction o.holt_winters df days_ahead),
   ("lstm", lstm_prediction o.lstm df days_ahead),
   ("monte_carlo", monte_carlo_prediction o.monte_carlo df days_ahead)]

/-- The valid-model filter:
`{k: v for k, v in models.items() if 'error' not in v and 'Error' not in v.get('model', '')}`. -/
def validModels (ms : List (String × ModelResult)) : List (String × ModelResult) :=
  ms.filter (fun p => !p.2.hasErrKey && !containsErrorMarker p.2.model)

/-- Accumulated total of the confidences over the valid models
(`result.get('confidence', 0.5)`; the key is always present). -/
def totalWeight (valid : List (String × ModelResult)) : ℚ :=
  (valid.map (fun p => p.2.confidence)).sum

/-- Normalized weights dict: each confidence divided by the total. -/
def weightsOf (valid : List (String × ModelResult)) : List (String × ℚ) :=
  valid.map (fun p => (p.1, p.2.confidence / totalWeight valid))

/-- Dict access `weights[name]`.  The 0 default is junk: in every use the
name is a key of the dict, as in the source. -/
def lookupWeight (ws : List (String × ℚ)) (name : String) : ℚ :=
  ((ws.find? (fun p => p.1 == name)).map Prod.snd).getD 0

/-- Ensemble point forecast,
`sum(result['prediction'] * weights[name] for name, result in valid_models.items())`. -/
def ensemblePredictionValue (valid : List (String × ModelResult)) : ℚ :=
  (valid.map (fun p => p.2.prediction * lookupWeight (weightsOf valid) p.1)).sum

/-- Ensemble aggregate confidence,
`sum(result.get('confidence', 0.5) * weights[name] for ...)`. -/
def ensembleConfidence (valid : List (String × ModelResult)) : ℚ :=
  (valid.map (fun p => p.2.confidence * lookupWeight (weightsOf valid) p.1)).sum

/-- Predicted path of one model as indexed by the ensemble:
`result.get('predictions', [result['prediction']] * days_ahead)`. -/
def pathOf (r : ModelResult) (days_ahead : ℕ) : List ℚ :=
  r.predictions.getD (List.replicate days_ahead r.prediction)

/-- True iff the path-averaging loop indexes every path in bounds; when
false, the source raises IndexError out of `ensemble_prediction`. -/
def ensemblePathsOk (valid : List (String × ModelResult)) (days_ahead : ℕ) : Bool :=
  valid.all (fun p => days_ahead ≤ (pathOf p.2 days_ahead).length)

/-- Ensemble predicted path, entry `i` being the weighted sum of the
models' path entries at `i`. -/
def ensemblePredictionsList (valid : List (String × ModelResult)) (days_ahead : ℕ) : List ℚ :=
  (List.range days_ahead).map (fun i =>
    (valid.map (fun p => (pathOf p.2 days_ahead).getD i 0 * lookupWeight (weightsOf valid) p.1)).sum)

/-- Ensemble result dict. -/
structure EnsembleResult where
  prediction : ℚ
  predictions : List ℚ
  confidence : ℚ
  model : String
  models_used : List String
  weights : List (String × ℚ)
deriving DecidableEq

/-- Outcome of a Python call: a normal value, a returned error dict
(`{'error': msg}`), or a raised exception. -/
inductive PyResult (α : Type) where
  | ok (val : α)
  | errDict (msg : String)
  | exn (msg : String)
deriving DecidableEq

/-- True only on `ok`; an error outcome carries no partial report. -/
def PyResult.isOk {α : Type} : PyResult α → Bool
  | .ok _ => true
  | _ => false

/-- The ensemble combiner, `ensemble_prediction(df, days_ahead)`.  The
source computes weights, point forecast and confidence before the path
loop; an out-of-bounds path index aborts the call with IndexError after
those computations, so checking path bounds first yields the same
outcome. -/
def ensemble_prediction (o : ModelOracles) (df : List Bar) (days_ahead : ℕ) :
    PyResult EnsembleResult :=
  if df.length < 30 then .errDict "Insufficient data for ensemble forecasting"
  else if (validModels (modelsOf o df days_ahead)).isEmpty then
    .errDict "No valid models available"
  else if ensemblePathsOk (validModels (modelsOf o df days_ahead)) days_ahead then
    .ok { prediction := ensemblePredictionValue (validModels (modelsOf o df days_ahead))
          predictions := ensemblePredictionsList (validModels (modelsOf o df days_ahead)) days_ahead
          confidence := ensembleConfidence (validModels (modelsOf o df days_ahead))
          model := "Ensemble"
          models_used := (validModels (modelsOf o df days_ahead)).map Prod.fst
          weights := weightsOf (validModels (modelsOf o df days_ahead)) }
  else .exn "list index out of range"

/-!
Monte Carlo simulator, `monte_carlo_simulation(df, days_ahead, simulations)`,
embedded in full.  The draw `np.random.normal(drift, volatility)` for step
`t` of simulation `k` is the oracle value `shocks k t`; floating square
roots (inside `returns.std()` and `np.std`) are the oracle `sqrtO`.  The
source accumulates each path in a list and keeps its last element; the
fold below computes that last element directly.
-/

/-- Daily simple returns, `df['close'].pct_change().dropna()`: one entry
per consecutive pair of closes.  Division by a zero close is junk 0 (the
source would produce inf). -/
def pctChange (c : List ℚ) : List ℚ :=
  (c.zip (c.drop 1)).map (fun p => (p.2 - p.1) / p.1)

/-- Terminal price of simulation `k`: the last element of the price path
`p_0 = current`, `p_(t+1) = p_t * (1 + shocks k t)`. -/
def mcTerminal (shocks : ℕ → ℕ → ℚ) (current : ℚ) (days_ahead k : ℕ) : ℚ :=
  (List.range days_ahead).foldl (fun p t => p * (1 + shocks k t)) current

/-- The list `simulations_results` of terminal prices, one per simulation. -/
def mcTerminals (shocks : ℕ → ℕ → ℚ) (current : ℚ) (days_ahead simulations : ℕ) : List ℚ :=
  (List.range simulations).map (fun k => mcTerminal shocks current days_ahead k)

/-- Closed product form of one terminal price (used to state the Monte
Carlo claim independently of the path iteration). -/
def mcTerminalClosed (shocks : ℕ → ℕ → ℚ) (current : ℚ) (days_ahead k : ℕ) : ℚ :=
  current * ((List.range days_ahead).map (fun t => 1 + shocks k t)).prod

/-- Closed form of the whole terminal-price list. -/
def mcTerminalsClosed (shocks : ℕ → ℕ → ℚ) (current : ℚ) (days_ahead simulations : ℕ) : List ℚ :=
  (List.range simulations).map (fun k => mcTerminalClosed shocks current days_ahead k)

/-- Linear-interpolation percentile, `np.percentile(a, q)`: the sorted
list evaluated at fractional rank `q / 100 * (n - 1)`. -/
def percentileLinear (l : List ℚ) (q : ℚ) : ℚ :=
  let s := l.mergeSort (fun a b => decide (a ≤ b))
  let n := s.length
  let rank : ℚ := q * ((n : ℚ) - 1) / 100
  let lo : ℕ := rank.floor.toNat
  let x := s.getD lo 0
  x + (s.getD (lo + 1) x - x) * (rank - (lo : ℚ))

/-- Result dict of `monte_carlo_simulation`; the diagnostic keys are absent
(`none`) in the insufficiency fallback. -/
structure MCOutput where
  prediction : ℚ
  confidence : ℚ
  model : String
  volatility : Option ℚ
  confidence_95 : Option (ℚ × ℚ)
  confidence_99 : Option (ℚ × ℚ)
  var_95 : Option ℚ
  var_99 : Option ℚ
deriving DecidableEq

/-- Full Monte Carlo simulator.  In the source, `drift` (mean of returns)
and `volatility` (std of returns) only parameterize the normal draws;
here the draws themselves are the oracle, so only `volatility`, which is
also reported in the result dict, is still computed. -/
def monte_carlo_simulation (shocks : ℕ → ℕ → ℚ) (sqrtO : ℚ → ℚ)
    (df : List Bar) (days_ahead simulations : ℕ) : MCOutput :=
  if df.length < 30 then
    { prediction := lastClose df, confidence := 1 / 2, model := "Insufficient Data"
      volatility := none, confidence_95 := none, confidence_99 := none
      var_95 := none, var_99 := none }
  else
    let returns := pctChange (closes df)
    let volatility := sqrtO (sampleVariance returns)
    let current_price := lastClose df
    let simulations_results := mcTerminals shocks current_price days_ahead simulations
    let mean_prediction := listMean simulations_results
    let std_prediction := sqrtO (popVariance simulations_results)
    let confidence := max (3 / 10) (min (7 / 10) (1 - std_prediction / mean_prediction))
    { prediction := mean_prediction
      confidence := confidence
      model := "Monte Carlo Simulation"
      volatility := some volatility
      confidence_95 := some (percentileLinear simulations_results (5 / 2),
                             percentileLinear simulations_results (195 / 2))
      confidence_99 := some (percentileLinear simulations_results (1 / 2),
                             percentileLinear simulations_results (199 / 2))
      var_95 := some (percentileLinear simulations_results 5)
      var_99 := some (percentileLinear simulations_results 1) }

/-!
Trend analyzer, `advanced_trend_analysis(df)`.  The source also computes a
50-day moving average but never reads it in the scoring.  The integer
score accumulates in three steps (moving-average alignment, momentum,
volume amplification), factored below exactly along those steps.
-/

/-- Trend result dict.  In the short-history fallback the source dict
carries only direction, strength and signal; the remaining fields are
filled with 0 here.  The reported volume quotient (source key
`volume_ratio`) is named `volumeRel`; with a zero average volume the
source stores a float inf/NaN where this field holds junk 0 — no claim
reads the reported value. -/
structure TrendInfo where
  direction : String
  strength : ℚ
  signal : String
  trend_score : ℤ
  momentum_5d : ℚ
  momentum_20d : ℚ
  volumeRel : ℚ
deriving DecidableEq

/-- Moving-average alignment score: +3 for
`current > MA5 > MA10 > MA20`, -3 for the full inversion, else 0. -/
def maAlignmentScore (c : List ℚ) : ℤ :=
  if rollingMeanLast 5 c < c.getLastD 0 ∧ rollingMeanLast 10 c < rollingMeanLast 5 c ∧
      rollingMeanLast 20 c < rollingMeanLast 10 c then 3
  else if c.getLastD 0 < rollingMeanLast 5 c ∧ rollingMeanLast 5 c < rollingMeanLast 10 c ∧
      rollingMeanLast 10 c < rollingMeanLast 20 c then -3
  else 0

/-- Five-day momentum percentage, `(current - close[-6]) / close[-6] * 100`.
Division by a zero close is junk (cannot change the proved score facts,
which hold for every Boolean outcome of the momentum tests). -/
def momentum5 (c : List ℚ) : ℚ :=
  let current := c.getLastD 0
  let base := c.getD (c.length - 6) 0
  (current - base) / base * 100

/-- Twenty-day momentum percentage, over `close[-21]`. -/
def momentum20 (c : List ℚ) : ℚ :=
  let current := c.getLastD 0
  let base := c.getD (c.length - 21) 0
  (current - base) / base * 100

/-- Momentum score: +2 when both momenta clear +2% / +5%, -2 when both
fall below -2% / -5%, else 0. -/
def momentumScore (c : List ℚ) : ℤ :=
  if 2 < momentum5 c ∧ 5 < momentum20 c then 2
  else if momentum5 c < -2 ∧ momentum20 c < -5 then -2
  else 0

/-- Running score before the volume step. -/
def preVolumeScore (c : List ℚ) : ℤ := maAlignmentScore c + momentumScore c

/-- The test `volume_ratio > 1.5`.  A zero 20-day average volume makes the
source quotient +inf (test true) for positive last volume and NaN (test
false) when the last volume is also zero; both cases are modelled by the
zero-average branch. -/
def volumeHigh (vols : List ℚ) : Bool :=
  let avg := rollingMeanLast 20 vols
  let vlast := vols.getLastD 0
  if avg = 0 then decide (0 < vlast) else decide (3 / 2 < vlast / avg)

/-- Volume amplification: +1 or -1 matching the sign of the running score
when volume is high, never moving a zero score. -/
def volumeAdj (vols : List ℚ) (s : ℤ) : ℤ :=
  if volumeHigh vols ∧ 0 < s then 1
  else if volumeHigh vols ∧ s < 0 then -1
  else 0

/-- Final integer trend score of `advanced_trend_analysis`. -/
def trendScore (df : List Bar) : ℤ :=
  let s := preVolumeScore (closes df)
  s + volumeAdj (volumes df) s

/-- Direction and signal classification from the score. -/
def trendClass (s : ℤ) : String × String :=
  if 4 ≤ s then ("strong_uptrend", "STRONG BUY")
  else if 2 ≤ s then ("uptrend", "BUY")
  else if s ≤ -4 then ("strong_downtrend", "STRONG SELL")
  else if s ≤ -2 then ("downtrend", "SELL")
  else ("neutral", "HOLD")

/-- The trend analyzer.  Below 30 bars: the neutral fallback dict. -/
def advanced_trend_analysis (df : List Bar) : TrendInfo :=
  if df.length < 30 then
    { direction := "neutral", strength := 1 / 2, signal := "HOLD"
      trend_score := 0, momentum_5d := 0, momentum_20d := 0, volumeRel := 0 }
  else
    let c := closes df
    let s := trendScore df
    let cls := trendClass s
    { direction := cls.1
      strength := min (|(s : ℚ)| / 6) 1
      signal := cls.2
      trend_score := s
      momentum_5d := momentum5 c
      momentum_20d := momentum20 c
      volumeRel := (volumes df).getLastD 0 / rollingMeanLast 20 (volumes df) }

/-- Recommendation ladder of `generate_forecast`, applied to the ensemble
price change percentage and the trend signal. -/
def recommendationOf (price_change : ℚ) (signal : String) : String :=
  if 8 < price_change ∧ (signal = "STRONG BUY" ∨ signal = "BUY") then "STRONG BUY"
  else if 3 < price_change ∧ (signal = "BUY" ∨ signal = "STRONG BUY") then "BUY"
  else if price_change < -8 ∧ (signal = "STRONG SELL" ∨ signal = "SELL") then "STRONG SELL"
  else if price_change < -3 ∧ (signal = "SELL" ∨ signal = "STRONG SELL") then "SELL"
  else "HOLD"

/-- The stock data argument: the `historical` frame (possibly absent) and
the current price.  The caller passing `None` or an empty dict is the
`none` case of the surrounding Option. -/
structure StockData where
  historical : Option (List Bar)
  current_price : ℚ

/-- The top-level result dict of `generate_forecast`.  The `rsi` field
holds `rsi.iloc[-1]`, which can be NaN (`none`). -/
structure ForecastReport where
  current_price : ℚ
  strategies : List (String × ModelResult)
  ensemble : EnsembleResult
  average_forecast : ℚ
  average_change_percent : ℚ
  recommendation : String
  trend : TrendInfo
  rsi : Option ℚ
  rsi_signal : String
  macd_signal : String
  bollinger_position : String
  stochastic_signal : String
  days_ahead : ℕ
  models_used : ℕ
  confidence : ℚ
deriving DecidableEq

/-- Body of `generate_forecast` once a historical frame is in hand.  The
source computes the indicator values inside the try block before calling
the ensemble; they are pure and total, so computing them in the `ok`
branch (their only use) gives the same outcome.  A raised exception in
the try block is caught and rendered as a `Forecast generation failed`
error dict; with the indicator layer total, the only raiser is the path
indexing inside `ensemble_prediction`.  The division by a zero
`current_price` is junk 0 (in the source it would raise ZeroDivisionError
for a plain float; no claim constrains that case). -/
def generateForecastBody (o : ModelOracles) (sd : StockData) (df : List Bar)
    (sqrtO : ℚ → ℚ) (days_ahead : ℕ) : PyResult ForecastReport :=
  if df.length < 20 then
    .errDict "Insufficient data for forecasting (minimum 20 days required)"
  else
    match ensemble_prediction o df days_ahead with
    | .errDict m => .errDict m
    | .exn m => .errDict ("Forecast generation failed: " ++ m)
    | .ok ensemble_result =>
      let c := closes df
      let trend_info := advanced_trend_analysis df
      let current_price := sd.current_price
      let ensemble_final := ensemble_result.prediction
      let price_change := (ensemble_final - current_price) / current_price * 100
      let valid := validModels (modelsOf o df days_ahead)
      let rsiLast := rsiAt c 14 (c.length - 1)
      .ok
        { current_price := current_price
          strategies := valid
          ensemble := ensemble_result
          average_forecast := ensemble_final
          average_change_percent := price_change
          recommendation := recommendationOf price_change trend_info.signal
          trend := trend_info
          rsi := rsiLast
          rsi_signal :=
            match rsiLast with
            | some v => if 70 < v then "OVERBOUGHT" else if v < 30 then "OVERSOLD" else "NEUTRAL"
            | none => "NEUTRAL"
          macd_signal := if 0 < macdHistogramLast c then "BULLISH" else "BEARISH"
          bollinger_position := bollingerPosition sqrtO c current_price
          stochastic_signal := stochasticSignal df
          days_ahead := days_ahead
          models_used := valid.length
          confidence := ensemble_result.confidence }

/-- The orchestrator, `generate_forecast(stock_data, days_ahead)`:
`None`/empty stock data or a missing `historical` key short-circuit to the
no-data error before any computation. -/
def generate_forecast (o : ModelOracles) (stock_data : Option StockData)
    (sqrtO : ℚ → ℚ) (days_ahead : ℕ) : PyResult ForecastReport :=
  match stock_data with
  | none => .errDict "No historical data available"
  | some sd =>
    match sd.historical with
    | none => .errDict "No historical data available"
    | some df => generateForecastBody o sd df sqrtO days_ahead

/-!
Concrete data used by witnesses and counterexamples.
-/

/-- One synthetic bar: positive prices around `c`, volume 100, date `i`. -/
def mkBar (i : ℕ) (c : ℚ) : Bar :=
  { date := i, open_ := c, high := c + 1, low := c - 1, close := c, volume := 100 }

/-- A synthetic series of `n` bars with strictly increasing dates and
strictly positive prices. -/
def seriesBars (n : ℕ) : List Bar :=
  (List.range n).map (fun i => mkBar i (100 + (i : ℚ)))

/-- Strictly increasing dates, the PriceSeries invariant of the spec:
every consecutive pair of dates increases. -/
def strictlyIncreasingDates (bars : List Bar) : Bool :=
  ((bars.map Bar.date).zip ((bars.map Bar.date).drop 1)).all (fun p => decide (p.1 < p.2))

/-- All closes strictly positive, the PriceSeries invariant of the spec. -/
def allPositiveCloses (bars : List Bar) : Bool :=
  bars.all (fun b => decide (0 < b.close))

def df19 : List Bar := seriesBars 19
def df25 : List Bar := seriesBars 25
def df30 : List Bar := seriesBars 30
def df60 : List Bar := seriesBars 60

/-- Model dict with the given prediction, confidence and model tag, no
predictions key, no error key. -/
def mkModelResult (pred conf : ℚ) (name : String) : ModelResult :=
  { prediction := pred, predictions := none, confidence := conf, model := name
    hasErrKey := false }

/-- Benign try-block outcome: a plain fitted result. -/
def constModelResult : ModelResult := mkModelResult 100 (1 / 2) "Oracle"

/-- Oracle suite whose try blocks all succeed with `constModelResult`. -/
def cOracles : ModelOracles :=
  { arima := fun _ _ => constModelResult
    prophet := fun _ _ => constModelResult
    holt_winters := fun _ _ => constModelResult
    lstm := fun _ _ => constModelResult
    monte_carlo := fun _ _ => constModelResult }

/-- Try-block outcome carrying the Error marker in its model tag (the
caught-exception dicts of the source, such as `Prophet Error: ...`). -/
def errModelResult : ModelResult := mkModelResult 100 (1 / 2) "Oracle Error"

/-- Oracle suite whose try blocks all fail with Error-tagged dicts. -/
def errOracles : ModelOracles :=
  { arima := fun _ _ => errModelResult
    prophet := fun _ _ => errModelResult
    holt_winters := fun _ _ => errModelResult
    lstm := fun _ _ => errModelResult
    monte_carlo := fun _ _ => errModelResult }

/-- Trivial square-root oracle for witnesses. -/
def sqrtZero : ℚ → ℚ := fun _ => 0

/-- Trivial shock oracle (all normal draws 0) for witnesses. -/
def shocksZero : ℕ → ℕ → ℚ := fun _ _ => 0

/-- Concrete two-model valid set for the ensemble witnesses. -/
def cValid : List (String × ModelResult) :=
  [("arima", mkModelResult 110 (6 / 10) "ARIMA(1, 1, 1)"),
   ("monte_carlo", mkModelResult 105 (1 / 2) "Monte Carlo Simulation")]

/-- Valid set before the confidence bump of the monotonicity
counterexample. -/
def cV1 : List (String × ModelResult) :=
  [("a", mkModelResult 100 (3 / 10) "M"), ("b", mkModelResult 100 (9 / 10) "M")]

/-- Valid set after the bump: both confidences strictly larger, both
predictions unchanged. -/
def cV2 : List (String × ModelResult) :=
  [("a", mkModelResult 100 (4 / 10) "M"), ("b", mkModelResult 100 (901 / 1000) "M")]

/-- Point predictions of a valid set. -/
def predsOf (l : List (String × ModelResult)) : List ℚ :=
  l.map (fun p => p.2.prediction)

/-- Confidences of a valid set. -/
def confsOf (l : List (String × ModelResult)) : List ℚ :=
  l.map (fun p => p.2.confidence)

/-- Pointwise strict increase of confidences between two valid sets. -/
def confsIncrease (l1 l2 : List (String × ModelResult)) : Prop :=
  List.Forall₂ (fun a b => a < b) (confsOf l1) (confsOf l2)

/-- Alternating series: RSI window with seven unit gains and seven unit
losses, hence RSI 50 at the last index. -/
def cAlt : List ℚ :=
  [100, 101, 100, 101, 100, 101, 100, 101, 100, 101, 100, 101, 100, 101, 100]

/-- Flat series ending in a single gain: zero average loss, positive
average gain at the last index. -/
def cGain : List ℚ := List.replicate 14 100 ++ [101]

/-- Entirely flat series: zero average loss and zero average gain at the
last index. -/
def cFlat : List ℚ := List.replicate 15 100

/-- Stock data wrapping the 19-bar series. -/
def cSd19 : StockData := { historical := some df19, current_price := 100 }

/-- Stock data wrapping the 25-bar series. -/
def cSd25 : StockData := { historical := some df25, current_price := 100 }

/-- Stock data wrapping the 60-bar series. -/
def cSd60 : StockData := { historical := some df60, current_price := 100 }

/-- Stock data whose dict lacks the `historical` key. -/
def cSdNoHist : StockData := { historical := none, current_price := 100 }

/-- Valid set with every confidence scaled by a common factor, predictions
and names unchanged. -/
def scaleConfidences (lam : ℚ) (l : List (String × ModelResult)) :
    List (String × ModelResult) :=
  l.map (fun p => (p.1, { p.2 with confidence := lam * p.2.confidence }))

/-!
Helper lemmas shared by the claim theorems.

Batteries marks the rational field operations `[irreducible]`, which
blocks `decide` on concrete rational computations; restoring the default
reducibility (file-local) lets witnesses evaluate the embedded functions
on concrete inputs by kernel reduction.
-/

attribute [local semireducible] Rat.add Rat.mul Rat.inv Rat.sub

theorem sum_map_div {α : Type} (l : List α) (f : α → ℚ) (d : ℚ) :
    (l.map (fun x => f x / d)).sum = (l.map f).sum / d := by
  induction l with
  | nil => simp
  | cons a t ih => simp [ih, add_div]

theorem gainTerm_nonneg (c : List ℚ) (j : ℕ) : 0 ≤ gainTerm c j := by
  unfold gainTerm
  split_ifs
  · exact le_refl 0
  · exact le_max_right _ _

theorem lossTerm_nonneg (c : List ℚ) (j : ℕ) : 0 ≤ lossTerm c j := by
  unfold lossTerm
  split_ifs
  · exact le_refl 0
  · exact le_max_right _ _

theorem avgGain_nonneg (c : List ℚ) (period i : ℕ) : 0 ≤ avgGain c period i := by
  unfold avgGain
  refine div_nonneg (List.sum_nonneg ?_) (by positivity)
  intro x hx
  obtain ⟨k, _, rfl⟩ := List.mem_map.mp hx
  exact gainTerm_nonneg c _

theorem avgLoss_nonneg (c : List ℚ) (period i : ℕ) : 0 ≤ avgLoss c period i := by
  unfold avgLoss
  refine div_nonneg (List.sum_nonneg ?_) (by positivity)
  intro x hx
  obtain ⟨k, _, rfl⟩ := List.mem_map.mp hx
  exact lossTerm_nonneg c _

theorem totalWeight_pos (valid : List (String × ModelResult)) (hne : valid ≠ [])
    (hpos : ∀ p ∈ valid, 0 < p.2.confidence) : 0 < totalWeight valid := by
  match valid, hne with
  | p :: t, _ =>
    have h1 : 0 < p.2.confidence := hpos p (List.mem_cons_self _ _)
    have h2 : 0 ≤ (t.map (fun q => q.2.confidence)).sum := by
      refine List.sum_nonneg ?_
      intro x hx
      obtain ⟨q, hq, rfl⟩ := List.mem_map.mp hx
      exact le_of_lt (hpos q (List.mem_cons_of_mem _ hq))
    have : totalWeight (p :: t) = p.2.confidence + (t.map (fun q => q.2.confidence)).sum := by
      simp [totalWeight]
    linarith [this]

theorem lookupWeight_map_eq (g : String × ModelResult → ℚ) :
    ∀ (l : List (String × ModelResult)) (p : String × ModelResult),
      p ∈ l → (l.map Prod.fst).Nodup →
      lookupWeight (l.map (fun q => (q.1, g q))) p.1 = g p := by
  intro l
  induction l with
  | nil =>
    intro p hp _
    simp at hp
  | cons a t ih =>
    intro p hp hnd
    rw [List.map_cons] at hnd
    have hnd1 := (List.nodup_cons.mp hnd).1
    have hnd2 := (List.nodup_cons.mp hnd).2
    by_cases hq : a.1 = p.1
    · have hfind : List.find? (fun r => r.1 == p.1) ((a.1, g a) :: t.map (fun q => (q.1, g q)))
          = some (a.1, g a) :=
        List.find?_cons_of_pos _ (by simp [hq])
      have hgp : g a = g p := by
        rcases List.mem_cons.mp hp with rfl | hp'
        · rfl
        · exact absurd (hq ▸ List.mem_map_of_mem Prod.fst hp') hnd1
      simp only [lookupWeight, List.map_cons]
      rw [hfind]
      simp [hgp]
    · have hfind : List.find? (fun r => r.1 == p.1) ((a.1, g a) :: t.map (fun q => (q.1, g q)))
          = List.find? (fun r => r.1 == p.1) (t.map (fun q => (q.1, g q))) :=
        List.find?_cons_of_neg _ (by simp [hq])
      have hp' : p ∈ t := by
        rcases List.mem_cons.mp hp with rfl | hp'
        · exact absurd rfl hq
        · exact hp'
      simp only [lookupWeight, List.map_cons]
      rw [hfind]
      exact ih p hp' hnd2

theorem lookupWeight_weightsOf (valid : List (String × ModelResult))
    (p : String × ModelResult) (hp : p ∈ valid)
    (hnd : (valid.map Prod.fst).Nodup) :
    lookupWeight (weightsOf valid) p.1 = p.2.confidence / totalWeight valid :=
  lookupWeight_map_eq (fun q => q.2.confidence / totalWeight valid) valid p hp hnd

theorem ensembleConfidence_closed (valid : List (String × ModelResult))
    (hnd : (valid.map Prod.fst).Nodup) :
    ensembleConfidence valid
      = (valid.map (fun p => p.2.confidence * (p.2.confidence / totalWeight valid))).sum := by
  unfold ensembleConfidence
  refine congrArg List.sum (List.map_congr_left ?_)
  intro p hp
  rw [lookupWeight_weightsOf valid p hp hnd]

theorem ensemblePredictionValue_closed (valid : List (String × ModelResult))
    (hnd : (valid.map Prod.fst).Nodup) :
    ensemblePredictionValue valid
      = (valid.map (fun p => p.2.prediction * (p.2.confidence / totalWeight valid))).sum := by
  unfold ensemblePredictionValue
  refine congrArg List.sum (List.map_congr_left ?_)
  intro p hp
  rw [lookupWeight_weightsOf valid p hp hnd]

theorem maAlignmentScore_cases (c : List ℚ) :
    maAlignmentScore c = 3 ∨ maAlignmentScore c = 0 ∨ maAlignmentScore c = -3 := by
  unfold maAlignmentScore
  split_ifs <;> simp

theorem momentumScore_cases (c : List ℚ) :
    momentumScore c = 2 ∨ momentumScore c = 0 ∨ momentumScore c = -2 := by
  unfold momentumScore
  split_ifs <;> simp

theorem volumeAdj_cases (v : List ℚ) (s : ℤ) :
    volumeAdj v s = 0 ∨ volumeAdj v s = 1 ∨ volumeAdj v s = -1 := by
  unfold volumeAdj
  split_ifs <;> simp

theorem volumeAdj_eq_one (v : List ℚ) (s : ℤ) (h : volumeAdj v s = 1) : 0 < s := by
  unfold volumeAdj at h
  split_ifs at h with h1 h2
  all_goals first
    | exact h1.2
    | exact h2.2
    | omega

theorem volumeAdj_eq_neg_one (v : List ℚ) (s : ℤ) (h : volumeAdj v s = -1) : s < 0 := by
  unfold volumeAdj at h
  split_ifs at h with h1 h2
  all_goals first
    | exact h1.2
    | exact h2.2
    | omega

theorem volumeAdj_of_zero (v : List ℚ) (s : ℤ) (h : s = 0) : volumeAdj v s = 0 := by
  unfold volumeAdj
  split_ifs with h1 h2
  all_goals first
    | rfl
    | exact absurd h1.2 (by simp [h])
    | exact absurd h2.2 (by simp [h])

theorem preVolumeScore_bound (c : List ℚ) :
    -5 ≤ preVolumeScore c ∧ preVolumeScore c ≤ 5 := by
  unfold preVolumeScore
  rcases maAlignmentScore_cases c with h | h | h <;>
    rcases momentumScore_cases c with h2 | h2 | h2 <;> omega

theorem trendScore_eq (df : List Bar) :
    trendScore df
      = preVolumeScore (closes df) + volumeAdj (volumes df) (preVolumeScore (closes df)) := rfl

theorem trendScore_bound (df : List Bar) :
    -6 ≤ trendScore df ∧ trendScore df ≤ 6 := by
  rw [trendScore_eq]
  rcases preVolumeScore_bound (closes df) with ⟨hl, hu⟩
  rcases volumeAdj_cases (volumes df) (preVolumeScore (closes df)) with h | h | h <;> omega

theorem mcTerminal_eq_closed (shocks : ℕ → ℕ → ℚ) (current : ℚ) (days_ahead k : ℕ) :
    mcTerminal shocks current days_ahead k = mcTerminalClosed shocks current days_ahead k := by
  induction days_ahead with
  | zero => simp [mcTerminal, mcTerminalClosed]
  | succ d ih =>
    unfold mcTerminal mcTerminalClosed at ih ⊢
    rw [List.range_succ, List.foldl_append, List.map_append, List.prod_append, ih]
    simp [mul_assoc]

theorem mcTerminals_eq_closed (shocks : ℕ → ℕ → ℚ) (current : ℚ) (days_ahead simulations : ℕ) :
    mcTerminals shocks current days_ahead simulations
      = mcTerminalsClosed shocks current days_ahead simulations := by
  unfold mcTerminals mcTerminalsClosed
  exact List.map_congr_left (fun k _ => mcTerminal_eq_closed shocks current days_ahead k)

/-- C6 (amended): every RSI entry that `calculate_rsi` computes as an
actual number lies in [0, 100]; and whenever the rolling average loss is
zero while the average gain is positive, the RSI entry is exactly 100
(the avg_gain / 0 = +inf branch), without an exception.  The remaining
avg_loss = 0 case, a fully flat window, yields NaN (`none`), refuting the
unamended claim (see the counterexample). -/
theorem c6_rsi_range :
    (∀ (c : List ℚ) (i : ℕ) (q : ℚ), rsiAt c 14 i = some q → 0 ≤ q ∧ q ≤ 100) ∧
    (∀ (c : List ℚ) (i : ℕ), 13 ≤ i → i < c.length →
      avgLoss c 14 i = 0 → avgGain c 14 i ≠ 0 → rsiAt c 14 i = some 100) := by
  constructor
  · intro c i q h
    unfold rsiAt at h
    by_cases hdom : i + 1 < 14 ∨ c.length ≤ i
    · rw [if_pos hdom] at h
      exact absurd h (by simp)
    · rw [if_neg hdom] at h
      by_cases hal : avgLoss c 14 i = 0
      · rw [if_pos hal] at h
        by_cases hag : avgGain c 14 i = 0
        · rw [if_pos hag] at h
          exact absurd h (by simp)
        · rw [if_neg hag] at h
          injection h with h100
          constructor <;> (rw [← h100]; try norm_num)
      · rw [if_neg hal] at h
        injection h with hq
        have hrs : 0 ≤ avgGain c 14 i / avgLoss c 14 i :=
          div_nonneg (avgGain_nonneg _ _ _) (avgLoss_nonneg _ _ _)
        have h1 : (0 : ℚ) < 1 + avgGain c 14 i / avgLoss c 14 i := by linarith
        have h2 : 100 / (1 + avgGain c 14 i / avgLoss c 14 i) ≤ 100 := by
          rw [div_le_iff h1]
          nlinarith
        have h3 : 0 < 100 / (1 + avgGain c 14 i / avgLoss c 14 i) := by positivity
        constructor <;> (rw [← hq]; linarith)
  · intro c i h13 hlen hal hag
    unfold rsiAt
    rw [if_neg (by push_neg; omega), if_pos hal, if_neg hag]

/-- Witness for C6: the alternating 15-bar series has RSI 50 at its last
index (seven unit gains against seven unit losses), inside [0, 100]; the
flat-then-gain series has zero average loss, positive average gain, and
RSI exactly 100. -/
theorem c6_rsi_range_witness :
    ((0 : ℚ) ≤ 50 ∧ (50 : ℚ) ≤ 100) ∧ rsiAt cGain 14 14 = some 100 :=
  ⟨c6_rsi_range.1 cAlt 14 50 (by decide),
   c6_rsi_range.2 cGain 14 (by decide) (by decide) (by decide) (by decide)⟩

/-- Counterexample for C6 as stated: on the fully flat 15-bar series the
rolling average loss at the last index is zero, yet the RSI value there is
NaN (`none`) rather than a number tending to 100 — so not every computed
RSI value lies in [0, 100] and the avg_loss = 0 case does not always give
100. -/
theorem c6_rsi_counterexample :
    avgLoss cFlat 14 14 = 0 ∧ 14 < cFlat.length ∧ rsiAt cFlat 14 14 = none := by
  refine ⟨by decide, by decide, by decide⟩

/-- C9: for series of at least 30 bars the integer trend score lies in
[-6, 6]; the volume adjustment is one of 0, +1, -1, adds +1 only to an
already positive running score and -1 only to a negative one, and leaves
a zero score at zero; the reported strength is exactly
min(|score| / 6, 1), hence lies in [0, 1]. -/
theorem c9_trend_invariants (df : List Bar) (h : 30 ≤ df.length) :
    (-6 ≤ (advanced_trend_analysis df).trend_score ∧
      (advanced_trend_analysis df).trend_score ≤ 6) ∧
    (advanced_trend_analysis df).trend_score
      = preVolumeScore (closes df) + volumeAdj (volumes df) (preVolumeScore (closes df)) ∧
    (volumeAdj (volumes df) (preVolumeScore (closes df)) = 0 ∨
      volumeAdj (volumes df) (preVolumeScore (closes df)) = 1 ∨
      volumeAdj (volumes df) (preVolumeScore (closes df)) = -1) ∧
    (volumeAdj (volumes df) (preVolumeScore (closes df)) = 1 → 0 < preVolumeScore (closes df)) ∧
    (volumeAdj (volumes df) (preVolumeScore (closes df)) = -1 → preVolumeScore (closes df) < 0) ∧
    (preVolumeScore (closes df) = 0 → (advanced_trend_analysis df).trend_score = 0) ∧
    (advanced_trend_analysis df).strength
      = min (|((advanced_trend_analysis df).trend_score : ℚ)| / 6) 1 ∧
    (0 ≤ (advanced_trend_analysis df).strength ∧ (advanced_trend_analysis df).strength ≤ 1) := by
  have hge : ¬(df.length < 30) := not_lt.mpr h
  have hts : (advanced_trend_analysis df).trend_score = trendScore df := by
    unfold advanced_trend_analysis
    rw [if_neg hge]
  have hstr : (advanced_trend_analysis df).strength = min (|(trendScore df : ℚ)| / 6) 1 := by
    unfold advanced_trend_analysis
    rw [if_neg hge]
  refine ⟨?_, ?_, ?_, ?_, ?_, ?_, ?_, ?_⟩
  · rw [hts]
    exact trendScore_bound df
  · rw [hts]
    exact trendScore_eq df
  · exact volumeAdj_cases _ _
  · exact volumeAdj_eq_one _ _
  · exact volumeAdj_eq_neg_one _ _
  · intro h0
    rw [hts, trendScore_eq, h0, volumeAdj_of_zero _ _ rfl]
    norm_num
  · rw [hstr, hts]
  · rw [hstr]
    exact ⟨le_min (by positivity) zero_le_one, min_le_right _ _⟩

/-- Witness for C9 at the concrete 30-bar series: the score bounds and
the strength bounds hold there. -/
theorem c9_trend_invariants_witness :
    (-6 ≤ (advanced_trend_analysis df30).trend_score ∧
      (advanced_trend_analysis df30).trend_score ≤ 6) ∧
    (0 ≤ (advanced_trend_analysis df30).strength ∧ (advanced_trend_analysis df30).strength ≤ 1) :=
  ⟨(c9_trend_invariants df30 (by decide)).1,
   (c9_trend_invariants df30 (by decide)).2.2.2.2.2.2.2⟩

/-- C8: for any series of at least 30 bars, any shock draws and any
square-root oracle, the Monte Carlo confidence equals
1 - std(terminal prices) / mean(terminal prices) clamped to [0.3, 0.7],
where the terminal price of simulation k is the product form
current * prod(1 + shock); the clamp bounds hold, and the point
prediction is the mean of the terminal prices. -/
theorem c8_monte_carlo_confidence (shocks : ℕ → ℕ → ℚ) (sqrtO : ℚ → ℚ)
    (df : List Bar) (days_ahead simulations : ℕ) (h : 30 ≤ df.length) :
    (monte_carlo_simulation shocks sqrtO df days_ahead simulations).confidence
      = max (3 / 10) (min (7 / 10)
          (1 - sqrtO (popVariance (mcTerminalsClosed shocks (lastClose df) days_ahead simulations))
            / listMean (mcTerminalsClosed shocks (lastClose df) days_ahead simulations))) ∧
    3 / 10 ≤ (monte_carlo_simulation shocks sqrtO df days_ahead simulations).confidence ∧
    (monte_carlo_simulation shocks sqrtO df days_ahead simulations).confidence ≤ 7 / 10 ∧
    (monte_carlo_simulation shocks sqrtO df days_ahead simulations).prediction
      = listMean (mcTerminalsClosed shocks (lastClose df) days_ahead simulations) := by
  have hge : ¬(df.length < 30) := not_lt.mpr h
  have hconf : (monte_carlo_simulation shocks sqrtO df days_ahead simulations).confidence
      = max (3 / 10) (min (7 / 10)
          (1 - sqrtO (popVariance (mcTerminals shocks (lastClose df) days_ahead simulations))
            / listMean (mcTerminals shocks (lastClose df) days_ahead simulations))) := by
    unfold monte_carlo_simulation
    rw [if_neg hge]
  have hpred : (monte_carlo_simulation shocks sqrtO df days_ahead simulations).prediction
      = listMean (mcTerminals shocks (lastClose df) days_ahead simulations) := by
    unfold monte_carlo_simulation
    rw [if_neg hge]
  rw [mcTerminals_eq_closed] at hconf hpred
  refine ⟨hconf, ?_, ?_, hpred⟩
  · rw [hconf]
    exact le_max_left _ _
  · rw [hconf]
    exact max_le (by norm_num) (le_trans (min_le_left _ _) (le_refl _))

/-- Witness for C8 at a concrete 30-bar series with zero shocks, three
simulations of two steps, and the zero square-root oracle. -/
theorem c8_monte_carlo_confidence_witness :
    3 / 10 ≤ (monte_carlo_simulation shocksZero sqrtZero df30 2 3).confidence ∧
    (monte_carlo_simulation shocksZero sqrtZero df30 2 3).confidence ≤ 7 / 10 :=
  ⟨(c8_monte_carlo_confidence shocksZero sqrtZero df30 2 3 (by decide)).2.1,
   (c8_monte_carlo_confidence shocksZero sqrtZero df30 2 3 (by decide)).2.2.1⟩

/-- C2: over any non-empty valid-model set with positive confidences and
distinct model names (the five fixed dict keys of the source), the dict
lookup resolves each model weight to confidence / total confidence, the
weights sum to exactly 1 (so in particular within 1e-9), and the ensemble
point prediction is the weighted sum of the point predictions under these
weights. -/
theorem c2_ensemble_weights (valid : List (String × ModelResult))
    (hne : valid ≠ []) (hnd : (valid.map Prod.fst).Nodup)
    (hpos : ∀ p ∈ valid, 0 < p.2.confidence) :
    (∀ p ∈ valid, lookupWeight (weightsOf valid) p.1 = p.2.confidence / totalWeight valid) ∧
    ((weightsOf valid).map Prod.snd).sum = 1 ∧
    ensemblePredictionValue valid
      = (valid.map (fun p => p.2.prediction * (p.2.confidence / totalWeight valid))).sum := by
  have hT : 0 < totalWeight valid := totalWeight_pos valid hne hpos
  refine ⟨fun p hp => lookupWeight_weightsOf valid p hp hnd, ?_,
    ensemblePredictionValue_closed valid hnd⟩
  have h1 : (weightsOf valid).map Prod.snd
      = valid.map (fun p => p.2.confidence / totalWeight valid) := by
    unfold weightsOf
    rw [List.map_map]
    rfl
  rw [h1, sum_map_div]
  exact div_self (ne_of_gt hT)

/-- Witness for C2: on the concrete two-model valid set the normalized
weights sum to exactly 1. -/
theorem c2_ensemble_weights_witness : ((weightsOf cValid).map Prod.snd).sum = 1 :=
  (c2_ensemble_weights cValid (by decide) (by decide) (by decide)).2.1

/-- C5 (amended): scaling every confidence by a common factor lam >= 1
(predictions unchanged) scales the aggregate confidence by lam, so the
aggregate is non-decreasing under uniform confidence increases.  The
unamended pointwise claim is refuted by the counterexample below. -/
theorem c5_confidence_scaling (valid : List (String × ModelResult)) (lam : ℚ)
    (hne : valid ≠ []) (hnd : (valid.map Prod.fst).Nodup)
    (hpos : ∀ p ∈ valid, 0 < p.2.confidence) (hlam : 1 ≤ lam) :
    ensembleConfidence (scaleConfidences lam valid) = lam * ensembleConfidence valid ∧
    ensembleConfidence valid ≤ ensembleConfidence (scaleConfidences lam valid) := by
  have hT : 0 < totalWeight valid := totalWeight_pos valid hne hpos
  have hlam0 : lam ≠ 0 := by linarith
  have hfst : (scaleConfidences lam valid).map Prod.fst = valid.map Prod.fst := by
    unfold scaleConfidences
    rw [List.map_map]
    rfl
  have hnd2 : ((scaleConfidences lam valid).map Prod.fst).Nodup := by
    rw [hfst]; exact hnd
  have hT2 : totalWeight (scaleConfidences lam valid) = lam * totalWeight valid := by
    unfold totalWeight scaleConfidences
    rw [List.map_map]
    exact List.sum_map_mul_left valid (fun p => p.2.confidence) lam
  have hscaled : ensembleConfidence (scaleConfidences lam valid)
      = lam * ensembleConfidence valid := by
    rw [ensembleConfidence_closed _ hnd2, ensembleConfidence_closed _ hnd, hT2]
    unfold scaleConfidences
    rw [List.map_map]
    rw [← List.sum_map_mul_left valid
      (fun p => p.2.confidence * (p.2.confidence / totalWeight valid)) lam]
    refine congrArg List.sum (List.map_congr_left ?_)
    intro p _
    show lam * p.2.confidence * (lam * p.2.confidence / (lam * totalWeight valid))
        = lam * (p.2.confidence * (p.2.confidence / totalWeight valid))
    rw [mul_div_mul_left _ _ hlam0]
    ring
  refine ⟨hscaled, ?_⟩
  rw [hscaled]
  have hagg : 0 ≤ ensembleConfidence valid := by
    rw [ensembleConfidence_closed _ hnd]
    refine List.sum_nonneg ?_
    intro x hx
    obtain ⟨p, hp, rfl⟩ := List.mem_map.mp hx
    have := hpos p hp
    positivity
  exact le_mul_of_one_le_left hagg hlam

/-- Witness for C5: on the concrete two-model valid set, doubling both
confidences doubles the aggregate confidence. -/
theorem c5_confidence_scaling_witness :
    ensembleConfidence (scaleConfidences 2 cValid) = 2 * ensembleConfidence cValid :=
  (c5_confidence_scaling cValid 2 (by decide) (by decide) (by decide) (by norm_num)).1

/-- Counterexample for C5 as stated: both models' confidences strictly
increase (0.3 to 0.4 and 0.9 to 0.901) with all point predictions fixed,
yet the aggregate confidence strictly decreases — the self-referential
weighted average is not pointwise monotone. -/
theorem c5_confidence_counterexample :
    confsIncrease cV1 cV2 ∧ predsOf cV1 = predsOf cV2 ∧
    ensembleConfidence cV2 < ensembleConfidence cV1 := by
  refine ⟨?_, by decide, by decide⟩
  unfold confsIncrease confsOf cV1 cV2
  refine List.Forall₂.cons (by decide) (List.Forall₂.cons (by decide) List.Forall₂.nil)

theorem generate_forecast_some_eq (o : ModelOracles) (sd : StockData) (sqrtO : ℚ → ℚ)
    (days_ahead : ℕ) :
    generate_forecast o (some sd) sqrtO days_ahead
      = (match sd.historical with
         | none => PyResult.errDict "No historical data available"
         | some df => generateForecastBody o sd df sqrtO days_ahead) := rfl

theorem generate_forecast_eq_body (o : ModelOracles) (sd : StockData) (df : List Bar)
    (sqrtO : ℚ → ℚ) (days_ahead : ℕ) (hh : sd.historical = some df) :
    generate_forecast o (some sd) sqrtO days_ahead
      = generateForecastBody o sd df sqrtO days_ahead := by
  rw [generate_forecast_some_eq, hh]

theorem generateForecastBody_short (o : ModelOracles) (sd : StockData) (df : List Bar)
    (sqrtO : ℚ → ℚ) (days_ahead : ℕ) (h : df.length < 20) :
    generateForecastBody o sd df sqrtO days_ahead
      = .errDict "Insufficient data for forecasting (minimum 20 days required)" := by
  unfold generateForecastBody
  rw [if_pos h]

theorem generateForecastBody_ens_err (o : ModelOracles) (sd : StockData) (df : List Bar)
    (sqrtO : ℚ → ℚ) (days_ahead : ℕ) (h20 : ¬(df.length < 20)) (m : String)
    (hens : ensemble_prediction o df days_ahead = .errDict m) :
    generateForecastBody o sd df sqrtO days_ahead = .errDict m := by
  unfold generateForecastBody
  rw [if_neg h20, hens]

theorem ensemble_prediction_short (o : ModelOracles) (df : List Bar) (days_ahead : ℕ)
    (h : df.length < 30) :
    ensemble_prediction o df days_ahead = .errDict "Insufficient data for ensemble forecasting" := by
  unfold ensemble_prediction
  rw [if_pos h]

/-- C7: with any historical frame of fewer than 20 bars, the orchestrator
returns the insufficient-history error dict — which carries only the
message, hence no partial report. -/
theorem c7_insufficient_history (o : ModelOracles) (sd : StockData) (df : List Bar)
    (sqrtO : ℚ → ℚ) (days_ahead : ℕ) (hh : sd.historical = some df)
    (hlen : df.length < 20) :
    generate_forecast o (some sd) sqrtO days_ahead
      = .errDict "Insufficient data for forecasting (minimum 20 days required)" := by
  rw [generate_forecast_eq_body o sd df sqrtO days_ahead hh]
  exact generateForecastBody_short o sd df sqrtO days_ahead hlen

/-- Witness for C7 at the concrete 19-bar series. -/
theorem c7_insufficient_history_witness :
    generate_forecast cOracles (some cSd19) sqrtZero 30
      = .errDict "Insufficient data for forecasting (minimum 20 days required)" :=
  c7_insufficient_history cOracles cSd19 df19 sqrtZero 30 rfl (by decide)

/-- C10: a missing (`None` or empty) stock-data dict, or one without the
`historical` key, makes `generate_forecast` return the no-data error dict
immediately, with no forecast computation attempted and no exception. -/
theorem c10_no_historical :
    (∀ (o : ModelOracles) (sqrtO : ℚ → ℚ) (days_ahead : ℕ),
      generate_forecast o none sqrtO days_ahead = .errDict "No historical data available") ∧
    (∀ (o : ModelOracles) (sd : StockData) (sqrtO : ℚ → ℚ) (days_ahead : ℕ),
      sd.historical = none →
      generate_forecast o (some sd) sqrtO days_ahead
        = .errDict "No historical data available") := by
  refine ⟨fun _ _ _ => rfl, ?_⟩
  intro o sd sqrtO days_ahead h
  rw [generate_forecast_some_eq, h]

/-- Witness for C10: both the missing dict and the dict lacking the
`historical` key give the no-data error. -/
theorem c10_no_historical_witness :
    generate_forecast cOracles none sqrtZero 30 = .errDict "No historical data available" ∧
    generate_forecast cOracles (some cSdNoHist) sqrtZero 30
      = .errDict "No historical data available" :=
  ⟨c10_no_historical.1 cOracles sqrtZero 30,
   c10_no_historical.2 cOracles cSdNoHist sqrtZero 30 rfl⟩

/-- C1 (amended): a series of 20 to 29 bars passes the orchestrator floor
but hits the ensemble floor of 30 bars, so `generate_forecast` returns the
ensemble insufficiency error instead of a report (refuting the claimed
20-bar sufficiency, see the counterexample); the per-model fallback part
of the claim holds: below 50 bars ARIMA returns the Insufficient Data
fallback dict, below 60 bars the sequence model does, regardless of the
library outcome. -/
theorem c1_data_floors :
    (∀ (o : ModelOracles) (sd : StockData) (df : List Bar) (sqrtO : ℚ → ℚ) (days_ahead : ℕ),
      sd.historical = some df → 20 ≤ df.length → df.length < 30 →
      generate_forecast o (some sd) sqrtO days_ahead
        = .errDict "Insufficient data for ensemble forecasting") ∧
    (∀ (body : List Bar → ℕ → ModelResult) (df : List Bar) (days_ahead : ℕ),
      df.length < 50 → auto_arima_prediction body df days_ahead = insufficientResult df) ∧
    (∀ (body : List Bar → ℕ → ModelResult) (df : List Bar) (days_ahead : ℕ),
      df.length < 60 → lstm_prediction body df days_ahead = insufficientResult df) := by
  refine ⟨?_, ?_, ?_⟩
  · intro o sd df sqrtO days_ahead hh h20 h30
    rw [generate_forecast_eq_body o sd df sqrtO days_ahead hh]
    exact generateForecastBody_ens_err o sd df sqrtO days_ahead (by omega) _
      (ensemble_prediction_short o df days_ahead h30)
  · intro body df days_ahead h
    unfold auto_arima_prediction
    rw [if_pos h]
  · intro body df days_ahead h
    unfold lstm_prediction
    rw [if_pos h]

/-- Witness for C1 at the concrete 25-bar series: the orchestrator
returns the ensemble insufficiency error, and ARIMA and the sequence
model return their Insufficient Data fallbacks. -/
theorem c1_data_floors_witness :
    generate_forecast cOracles (some cSd25) sqrtZero 30
      = .errDict "Insufficient data for ensemble forecasting" ∧
    auto_arima_prediction cOracles.arima df25 30 = insufficientResult df25 ∧
    lstm_prediction cOracles.lstm df25 30 = insufficientResult df25 :=
  ⟨c1_data_floors.1 cOracles cSd25 df25 sqrtZero 30 rfl (by decide) (by decide),
   c1_data_floors.2.1 cOracles.arima df25 30 (by decide),
   c1_data_floors.2.2 cOracles.lstm df25 30 (by decide)⟩

/-- Counterexample for C1 as stated: the 25-bar series has strictly
increasing dates, positive prices and at least 20 bars, yet
`generate_forecast` returns an error dict, not a complete report. -/
theorem c1_data_floors_counterexample :
    strictlyIncreasingDates df25 = true ∧ allPositiveCloses df25 = true ∧ df25.length = 25 ∧
    generate_forecast cOracles (some cSd25) sqrtZero 30
      = .errDict "Insufficient data for ensemble forecasting" ∧
    (generate_forecast cOracles (some cSd25) sqrtZero 30).isOk = false := by
  refine ⟨by decide, by decide, by decide, by decide, by decide⟩

/-- C3: when the error-marker filter leaves no valid model, the ensemble
returns the explicit No-valid-models error dict; the orchestrator
propagates any ensemble error dict verbatim to the caller (never a
silent default); and a result without an error key and without `Error`
in its model tag — in particular an insufficiency fallback — always
passes the filter into the valid set. -/
theorem c3_no_valid_models :
    (∀ (o : ModelOracles) (df : List Bar) (days_ahead : ℕ), 30 ≤ df.length →
      validModels (modelsOf o df days_ahead) = [] →
      ensemble_prediction o df days_ahead = .errDict "No valid models available") ∧
    (∀ (o : ModelOracles) (sd : StockData) (df : List Bar) (sqrtO : ℚ → ℚ)
      (days_ahead : ℕ) (m : String),
      sd.historical = some df → 20 ≤ df.length →
      ensemble_prediction o df days_ahead = .errDict m →
      generate_forecast o (some sd) sqrtO days_ahead = .errDict m) ∧
    (∀ (ms : List (String × ModelResult)) (p : String × ModelResult),
      p ∈ ms → p.2.hasErrKey = false → containsErrorMarker p.2.model = false →
      p ∈ validModels ms) := by
  refine ⟨?_, ?_, ?_⟩
  · intro o df days_ahead h30 hemp
    unfold ensemble_prediction
    rw [if_neg (not_lt.mpr h30), hemp]
    rfl
  · intro o sd df sqrtO days_ahead m hh h20 hens
    rw [generate_forecast_eq_body o sd df sqrtO days_ahead hh]
    exact generateForecastBody_ens_err o sd df sqrtO days_ahead (by omega) m hens
  · intro ms p hp h1 h2
    refine List.mem_filter.mpr ⟨hp, ?_⟩
    simp [h1, h2]

/-- Witness for C3: with all five try blocks failing with Error-tagged
dicts on the 60-bar series (no guard fires at 60 bars), the valid set is
empty, the ensemble fails with the explicit error, and the orchestrator
surfaces the same message; and on the 25-bar series the ARIMA
insufficiency fallback passes the filter. -/
theorem c3_no_valid_models_witness :
    ensemble_prediction errOracles df60 5 = .errDict "No valid models available" ∧
    generate_forecast errOracles (some cSd60) sqrtZero 5
      = .errDict "No valid models available" ∧
    ("arima", insufficientResult df25) ∈ validModels (modelsOf errOracles df25 30) :=
  ⟨c3_no_valid_models.1 errOracles df60 5 (by decide) (by decide),
   c3_no_valid_models.2.1 errOracles cSd60 df60 sqrtZero 5 "No valid models available" rfl
     (by decide) (c3_no_valid_models.1 errOracles df60 5 (by decide) (by decide)),
   c3_no_valid_models.2.2 (modelsOf errOracles df25 30) ("arima", insufficientResult df25)
     (by decide) (by decide) (by decide)⟩

/-- C4: the recommendation ladder of `generate_forecast`, characterized
clause by clause (the elif chain gives STRONG BUY priority over BUY and
STRONG SELL over SELL, so the BUY clause carries the implicit bound
price change <= 8 and the SELL clause the bound -8 <= price change);
HOLD holds exactly when neither gated clause fires, and in particular a
price change above 8 without a corroborating BUY-side trend signal
yields HOLD. -/
theorem c4_recommendation_ladder (pc : ℚ) (s : String) :
    (recommendationOf pc s = "STRONG BUY" ↔
      8 < pc ∧ (s = "STRONG BUY" ∨ s = "BUY")) ∧
    (recommendationOf pc s = "BUY" ↔
      (3 < pc ∧ pc ≤ 8) ∧ (s = "STRONG BUY" ∨ s = "BUY")) ∧
    (recommendationOf pc s = "STRONG SELL" ↔
      pc < -8 ∧ (s = "STRONG SELL" ∨ s = "SELL")) ∧
    (recommendationOf pc s = "SELL" ↔
      (pc < -3 ∧ -8 ≤ pc) ∧ (s = "STRONG SELL" ∨ s = "SELL")) ∧
    (recommendationOf pc s = "HOLD" ↔
      ¬(3 < pc ∧ (s = "STRONG BUY" ∨ s = "BUY")) ∧
      ¬(pc < -3 ∧ (s = "STRONG SELL" ∨ s = "SELL"))) ∧
    (8 < pc → ¬(s = "STRONG BUY" ∨ s = "BUY") → recommendationOf pc s = "HOLD") := by
  unfold recommendationOf
  split_ifs with h1 h2 h3 h4
  · refine ⟨iff_of_true rfl h1, ?_, ?_, ?_, ?_, fun _ hg => absurd h1.2 hg⟩
    · exact iff_of_false (by decide) (fun hh => absurd h1.1 (not_lt.mpr hh.1.2))
    · exact iff_of_false (by decide) (fun hh => by linarith [h1.1, hh.1])
    · exact iff_of_false (by decide) (fun hh => by linarith [h1.1, hh.1.1])
    · exact iff_of_false (by decide)
        (fun hh => hh.1 ⟨by linarith [h1.1], h1.2⟩)
  · have hg : s = "STRONG BUY" ∨ s = "BUY" := h2.2.symm
    have h8 : pc ≤ 8 := le_of_not_lt (fun hgt => h1 ⟨hgt, hg⟩)
    refine ⟨iff_of_false (by decide) h1, iff_of_true rfl ⟨⟨h2.1, h8⟩, hg⟩, ?_, ?_, ?_,
      fun _ hng => absurd hg hng⟩
    · exact iff_of_false (by decide) (fun hh => by linarith [h2.1, hh.1])
    · exact iff_of_false (by decide) (fun hh => by linarith [h2.1, hh.1.1])
    · exact iff_of_false (by decide) (fun hh => hh.1 ⟨h2.1, hg⟩)
  · refine ⟨?_, ?_, iff_of_true rfl h3, ?_, ?_, ?_⟩
    · exact iff_of_false (by decide) (fun hh => by linarith [h3.1, hh.1])
    · exact iff_of_false (by decide) (fun hh => by linarith [h3.1, hh.1.1])
    · exact iff_of_false (by decide) (fun hh => by linarith [h3.1, hh.1.2])
    · exact iff_of_false (by decide)
        (fun hh => hh.2 ⟨by linarith [h3.1], h3.2⟩)
    · intro hgt _
      exact absurd h3.1 (by linarith)
  · have hg : s = "STRONG SELL" ∨ s = "SELL" := h4.2.symm
    have h8 : -8 ≤ pc := le_of_not_lt (fun hlt => h3 ⟨hlt, hg⟩)
    refine ⟨?_, ?_, iff_of_false (by decide) h3,
      iff_of_true rfl ⟨⟨h4.1, h8⟩, hg⟩, ?_, ?_⟩
    · exact iff_of_false (by decide) (fun hh => by linarith [h4.1, hh.1])
    · exact iff_of_false (by decide) (fun hh => by linarith [h4.1, hh.1.1])
    · exact iff_of_false (by decide) (fun hh => hh.2 ⟨h4.1, hg⟩)
    · intro hgt _
      exact absurd h4.1 (by linarith)
  · refine ⟨iff_of_false (by decide) h1, ?_, iff_of_false (by decide) h3, ?_, ?_,
      fun _ _ => rfl⟩
    · exact iff_of_false (by decide) (fun hh => h2 ⟨hh.1.1, hh.2.symm⟩)
    · exact iff_of_false (by decide) (fun hh => h4 ⟨hh.1.1, hh.2.symm⟩)
    · refine iff_of_true rfl ⟨fun hh => h2 ⟨hh.1, hh.2.symm⟩, fun hh => h4 ⟨hh.1, hh.2.symm⟩⟩

/-- Witness for C4: a forecast price change of +10 percent with a HOLD
trend signal is degraded to HOLD by the trend gate. -/
theorem c4_recommendation_ladder_witness : recommendationOf 10 "HOLD" = "HOLD" :=
  (c4_recommendation_ladder 10 "HOLD").2.2.2.2.2 (by norm_num) (by decide)
